/-
Verification of the api-gateway repository's specification against its source.

Each section embeds one Go component as executable Lean definitions:
  * internal/middleware/circuit_breaker.go   (three-state breaker, generations)
  * internal/services/load_balancer.go       (strategies, healthy filtering)
  * internal/services/dynamic_route_manager.go (proxy path, auth check)
  * internal/k8s/discovery.go + DiscoveryManager (service events, route table)
  * rate limiter middleware + getClientIP    (per-IP keying)

Modelling conventions:
  * Go time.Time is a Nat instant; the zero Time is represented by
    Option Nat = none where the code distinguishes it (breaker expiry).
  * Go uint32 / int64 counters are Nat: they only ever increment from zero
    and no claim depends on wraparound behaviour.
  * Go float64 error-rate comparisons are modelled over ℚ.  uint32 values
    convert to float64 exactly, and for denominators below 2^32 the
    rounded quotient compares against the representable constant 0.5
    exactly as the rational quotient does, so the ℚ model is faithful.
  * Go errors are Option String (none = nil); fallible Go paths return
    Except/Option.
  * The crypto RNG of the random strategy is an oracle parameter.
-/
import Mathlib

namespace APIGateway

/-! ## Circuit breaker: internal/middleware/circuit_breaker.go -/

/-- CircuitBreakerState from circuit_breaker.go. -/
inductive CBState where
  | closed
  | halfOpen
  | open
deriving DecidableEq

/-- Counts from circuit_breaker.go (uint32 fields, modelled as Nat). -/
structure Counts where
  requests : Nat
  totalSuccesses : Nat
  totalFailures : Nat
  consecutiveSuccesses : Nat
  consecutiveFailures : Nat
deriving DecidableEq

/-- The zero Counts value, as produced by `Counts{}` in Go. -/
def Counts.zero : Counts := ⟨0, 0, 0, 0, 0⟩

/-- Counts.ErrorRate: failures/requests, 0 when requests = 0.
float64 division of uint32 operands compared against 0.5 agrees exactly
with the rational quotient, so the rate is modelled in ℚ. -/
def Counts.errorRate (c : Counts) : ℚ :=
  if c.requests = 0 then 0 else (c.totalFailures : ℚ) / (c.requests : ℚ)

/-- CircuitBreaker from circuit_breaker.go.  The function-valued config
fields readyToTrip and isSuccessful are carried in the structure, matching
the Go struct.  expiry none models the zero time.Time. -/
structure CircuitBreaker where
  maxRequests : Nat
  interval : Nat
  timeout : Nat
  readyToTrip : Counts → Bool
  isSuccessful : Option String → Bool
  state : CBState
  generation : Nat
  counts : Counts
  expiry : Option Nat

/-- time.Time.Before for the breaker's expiry field: the zero time (none)
is before every positive instant. -/
def timeBefore (e : Option Nat) (now : Nat) : Bool :=
  match e with
  | none => decide (0 < now)
  | some t => decide (t < now)

/-- toNewGeneration from circuit_breaker.go: bump the generation, zero the
counts, and reset expiry according to the (already updated) state. -/
def CircuitBreaker.toNewGeneration (cb : CircuitBreaker) (now : Nat) : CircuitBreaker :=
  { cb with
    generation := cb.generation + 1
    counts := Counts.zero
    expiry :=
      match cb.state with
      | CBState.closed => if cb.interval = 0 then none else some (now + cb.interval)
      | CBState.open => some (now + cb.timeout)
      | CBState.halfOpen => none }

/-- setState from circuit_breaker.go: no-op when the state is unchanged,
otherwise switch state and start a new generation (onStateChange only
logs and is not modelled). -/
def CircuitBreaker.setState (cb : CircuitBreaker) (s : CBState) (now : Nat) : CircuitBreaker :=
  if cb.state = s then cb
  else CircuitBreaker.toNewGeneration { cb with state := s } now

/-- currentState from circuit_breaker.go: applies the time-driven
transitions (interval expiry in closed, timeout expiry in open) and
returns the updated breaker together with its state and generation. -/
def CircuitBreaker.currentState (cb : CircuitBreaker) (now : Nat) :
    CircuitBreaker × CBState × Nat :=
  match cb.state with
  | CBState.closed =>
      if cb.expiry ≠ none ∧ timeBefore cb.expiry now then
        let cb1 := cb.toNewGeneration now
        (cb1, cb1.state, cb1.generation)
      else (cb, cb.state, cb.generation)
  | CBState.open =>
      if timeBefore cb.expiry now then
        let cb1 := cb.setState CBState.halfOpen now
        (cb1, cb1.state, cb1.generation)
      else (cb, cb.state, cb.generation)
  | CBState.halfOpen => (cb, cb.state, cb.generation)

/-- Error string of ErrOpenState. -/
def errOpenState : String := "circuit breaker: open state"

/-- Error string of ErrTooManyRequests. -/
def errTooManyRequests : String := "circuit breaker: too many requests"

/-- beforeRequest from circuit_breaker.go: returns the updated breaker,
the generation snapshot, and the rejection error if any; on admission
counts.Requests is incremented. -/
def CircuitBreaker.beforeRequest (cb : CircuitBreaker) (now : Nat) :
    CircuitBreaker × Nat × Option String :=
  let (cb1, state, generation) := cb.currentState now
  if state = CBState.open then
    (cb1, generation, some errOpenState)
  else if state = CBState.halfOpen ∧ cb1.counts.requests ≥ cb1.maxRequests then
    (cb1, generation, some errTooManyRequests)
  else
    ({ cb1 with counts := { cb1.counts with requests := cb1.counts.requests + 1 } },
      generation, none)

/-- onSuccess from circuit_breaker.go. -/
def CircuitBreaker.onSuccess (cb : CircuitBreaker) (state : CBState) (now : Nat) :
    CircuitBreaker :=
  let cb1 := { cb with counts :=
    { cb.counts with
      totalSuccesses := cb.counts.totalSuccesses + 1
      consecutiveSuccesses := cb.counts.consecutiveSuccesses + 1
      consecutiveFailures := 0 } }
  if state = CBState.halfOpen then cb1.setState CBState.closed now else cb1

/-- onFailure from circuit_breaker.go: the transition to open is guarded
by readyToTrip in every state, including half-open. -/
def CircuitBreaker.onFailure (cb : CircuitBreaker) (state : CBState) (now : Nat) :
    CircuitBreaker :=
  let cb1 := { cb with counts :=
    { cb.counts with
      totalFailures := cb.counts.totalFailures + 1
      consecutiveFailures := cb.counts.consecutiveFailures + 1
      consecutiveSuccesses := 0 } }
  let _ := state
  if cb1.readyToTrip cb1.counts then cb1.setState CBState.open now else cb1

/-- afterRequest from circuit_breaker.go: if the generation moved since
beforeRequest, the result is discarded and no counters are touched. -/
def CircuitBreaker.afterRequest (cb : CircuitBreaker) (before : Nat) (success : Bool)
    (now : Nat) : CircuitBreaker :=
  let (cb1, state, generation) := cb.currentState now
  if generation ≠ before then cb1
  else if success then cb1.onSuccess state now
  else cb1.onFailure state now

/-- defaultReadyToTrip from circuit_breaker.go. -/
def defaultReadyToTrip (counts : Counts) : Bool :=
  decide (counts.consecutiveFailures > 5)

/-- defaultIsSuccessful from circuit_breaker.go. -/
def defaultIsSuccessful (err : Option String) : Bool :=
  err = none

/-! ## Dynamic route manager: internal/services/dynamic_route_manager.go -/

/-- Scan for sub as a contiguous run starting at any position of l. -/
def listContainsRun (l sub : List Char) : Bool :=
  match l with
  | [] => sub.isEmpty
  | _ :: rest => sub.isPrefixOf l || listContainsRun rest sub

/-- strings.Contains: substring containment on the underlying characters. -/
def goContains (s sub : String) : Bool :=
  listContainsRun s.data sub.data

/-- strings.ToLower (ASCII case folding; the network-error needles are
all ASCII). -/
def goToLower (s : String) : String :=
  ⟨s.data.map Char.toLower⟩

/-- strings.HasPrefix. -/
def goStartsWith (s pat : String) : Bool :=
  pat.data.isPrefixOf s.data

/-- strings.TrimPrefix: drop the leading pattern when present, else
return the string unchanged. -/
def goTrimLeading (s pat : String) : String :=
  if goStartsWith s pat then ⟨s.data.drop pat.data.length⟩ else s

/-- The network-error needles of isNetworkError in
dynamic_route_manager.go. -/
def networkErrors : List String :=
  ["connection refused", "no such host", "network is unreachable",
   "timeout", "connection reset", "broken pipe"]

/-- isNetworkError from dynamic_route_manager.go: nil is not a network
error; otherwise match the lowered message against the needle list. -/
def isNetworkError (err : Option String) : Bool :=
  match err with
  | none => false
  | some msg => networkErrors.any fun netErr => goContains (goToLower msg) netErr

/-- The ReadyToTrip closure configured by NewDynamicRouteManager:
more than 5 consecutive failures, or more than 10 requests with error
rate above 50%. -/
def drmReadyToTrip (counts : Counts) : Bool :=
  decide (counts.consecutiveFailures > 5) ||
    (decide (counts.requests > 10) && decide (counts.errorRate > 1/2))

/-- The IsSuccessful closure configured by NewDynamicRouteManager:
nil errors succeed, network errors fail, other errors succeed. -/
def drmIsSuccessful (err : Option String) : Bool :=
  match err with
  | none => true
  | some _ => ! isNetworkError err

/-- NewCircuitBreaker applied to the config built in
NewDynamicRouteManager (MaxRequests 5, Interval 60s, Timeout 30s, the
closures above); the constructor runs toNewGeneration once. -/
def mkDRMCircuitBreaker (now : Nat) : CircuitBreaker :=
  CircuitBreaker.toNewGeneration
    { maxRequests := 5
      interval := 60
      timeout := 30
      readyToTrip := drmReadyToTrip
      isSuccessful := drmIsSuccessful
      state := CBState.closed
      generation := 0
      counts := Counts.zero
      expiry := none } now

/-- What the reverse-proxy transport does for one request: either the
backend answers with a status, or the dial/transfer fails with a
transport error message. -/
inductive ProxyTransport where
  | failure (msg : String)
  | response (status : Nat)

/-- The response writer is modelled as the list of status codes written
to the client, in order. -/
abbrev ResponseWrites := List Nat

/-- httputil.ReverseProxy.ServeHTTP under the handlers installed by
proxyRequestEnhanced: on a transport error the installed ErrorHandler
only logs and returns, writing nothing to the client (the library's
default 502 handler is replaced); on success the backend status is
streamed through. -/
def proxyServeHTTP (t : ProxyTransport) (rw : ResponseWrites) : ResponseWrites :=
  match t with
  | ProxyTransport.failure _ => rw
  | ProxyTransport.response status => rw ++ [status]

/-- proxyRequestEnhanced from dynamic_route_manager.go: run the proxy
inside CircuitBreaker.Execute.  The closure handed to Execute calls
proxy.ServeHTTP and then returns (nil, nil) unconditionally, so the
error fed back to the breaker is always nil, whatever the transport
did.  Returns the breaker, the writes, and the error surfaced to
handleDynamicRoute. -/
def proxyRequestEnhanced (cb : CircuitBreaker) (t : ProxyTransport)
    (rw : ResponseWrites) (now1 now2 : Nat) :
    CircuitBreaker × ResponseWrites × Option String :=
  let r := cb.beforeRequest now1
  match r.2.2 with
  | some e => (r.1, rw, some e)
  | none =>
      let rw2 := proxyServeHTTP t rw
      let ferr : Option String := none
      (CircuitBreaker.afterRequest r.1 r.2.1 (r.1.isSuccessful ferr) now2, rw2, none)

/-- The proxy-error branch of handleDynamicRoute: a non-nil error from
proxyRequestEnhanced yields a 503 write unless the message mentions the
circuit breaker. -/
def handleProxyResult (rw : ResponseWrites) (err : Option String) : ResponseWrites :=
  match err with
  | none => rw
  | some m => if goContains m "circuit breaker" then rw else rw ++ [503]

/-- checkAuthentication from dynamic_route_manager.go: the request
passes (true) or a 401 is written (false).  Only the presence of the
header and the literal Bearer marker are inspected; the token itself is
never handed to any verifier. -/
def checkAuthentication (authHeader : String) : Bool × ResponseWrites :=
  if authHeader = "" then (false, [401])
  else if ! goStartsWith authHeader "Bearer " then (false, [401])
  else (true, [])

/-- AuthMiddleware.Middleware from the middleware package: returns the
status written before rejecting, or none when the request is passed to
the next handler.  verify models jwtService.VerifyToken (true =
verification succeeded). -/
def authMiddleware (verify : String → Bool) (authRequired : Bool)
    (authHeader : String) : Option Nat :=
  if ! authRequired then none
  else if authHeader = "" then some 401
  else
    let tokenString := goTrimLeading authHeader "Bearer "
    if tokenString = authHeader then some 401
    else if ! verify tokenString then some 401
    else none

/-! ## Load balancer: internal/services/load_balancer.go -/

/-- ServiceEndpoint from internal/k8s/discovery.go (port is an int32 in
Go; it is only ever a positive port number, modelled as Nat). -/
structure ServiceEndpoint where
  ip : String
  port : Nat
  ready : Bool
  nodeName : String
deriving DecidableEq

/-- The sentinel k8s.ServiceEndpoint zero value. -/
def emptyEndpoint : ServiceEndpoint := ⟨"", 0, false, ""⟩

/-- Go string(rune(n)): the single character of code point n, or U+FFFD
when n is not a valid code point (surrogate range). -/
def runeChar (n : Nat) : Char :=
  if n < 0xd800 ∨ (0xdfff < n ∧ n < 0x110000) then Char.ofNat n
  else Char.ofNat 0xfffd

/-- The "ip:port" map key the strategies build:
endpoint.IP + ":" + string(rune(endpoint.Port)). -/
def endpointKey (e : ServiceEndpoint) : String :=
  e.ip ++ ":" ++ ⟨[runeChar e.port]⟩

/-- RoundRobinStrategy.SelectEndpoint: take endpoints[current % len] and
increment the counter; the counter is untouched on empty input. -/
def rrSelectEndpoint (current : Nat) (endpoints : List ServiceEndpoint) :
    ServiceEndpoint × Nat :=
  if endpoints.isEmpty then (emptyEndpoint, current)
  else (endpoints.getD (current % endpoints.length) emptyEndpoint, current + 1)

/-- The weights map of WeightedRoundRobinStrategy (nil map = every
lookup misses). -/
abbrev WeightMap := String → Option Int

/-- The nil weights map passed by GetOrCreateLoadBalancer. -/
def nilWeights : WeightMap := fun _ => none

/-- The totalWeight accumulation loop of
WeightedRoundRobinStrategy.SelectEndpoint: map hits contribute their
weight, misses contribute the default weight 1. -/
def wrrTotalWeight (w : WeightMap) (endpoints : List ServiceEndpoint) : Int :=
  endpoints.foldl (fun acc e => acc + ((w (endpointKey e)).getD 1)) 0

/-- The selection walk of WeightedRoundRobinStrategy.SelectEndpoint:
accumulate weights and return the first endpoint once the accumulator
exceeds the target; none when the walk falls off the list. -/
def wrrWalk (w : WeightMap) : List ServiceEndpoint → Int → Int → Option ServiceEndpoint
  | [], _, _ => none
  | e :: rest, acc, target =>
      let weight := (w (endpointKey e)).getD 1
      if acc + weight > target then some e
      else wrrWalk w rest (acc + weight) target

/-- WeightedRoundRobinStrategy.SelectEndpoint: computes totalWeight,
falls back to endpoints[0] when it is zero (without advancing the
counter), otherwise walks to the target = current % totalWeight and
advances the counter.  Go's % on int truncates toward zero
(Int.tmod). -/
def wrrSelectEndpoint (w : WeightMap) (current : Nat)
    (endpoints : List ServiceEndpoint) : ServiceEndpoint × Nat :=
  if endpoints.isEmpty then (emptyEndpoint, current)
  else
    let totalWeight := wrrTotalWeight w endpoints
    if totalWeight = 0 then (endpoints.getD 0 emptyEndpoint, current)
    else
      let target := Int.tmod (Int.ofNat current) totalWeight
      match wrrWalk w endpoints 0 target with
      | some e => (e, current + 1)
      | none => (endpoints.getD 0 emptyEndpoint, current)

/-- The connections map of LeastConnectionsStrategy; Go map lookups of
missing keys yield 0. -/
abbrev ConnMap := String → Int

/-- The minimum walk of LeastConnectionsStrategy.SelectEndpoint,
carrying the selected endpoint and minConnections (initially -1). -/
def lcWalk (conns : ConnMap) :
    List ServiceEndpoint → ServiceEndpoint → Int → ServiceEndpoint
  | [], selected, _ => selected
  | e :: rest, selected, minConnections =>
      let c := conns (endpointKey e)
      if minConnections = -1 ∨ c < minConnections then lcWalk conns rest e c
      else lcWalk conns rest selected minConnections

/-- LeastConnectionsStrategy.SelectEndpoint. -/
def lcSelectEndpoint (conns : ConnMap) (endpoints : List ServiceEndpoint) :
    ServiceEndpoint :=
  if endpoints.isEmpty then emptyEndpoint
  else lcWalk conns endpoints emptyEndpoint (-1)

/-- RandomStrategy.SelectEndpoint: the crypto RNG draw over
[0, len) is supplied as an oracle; a failed draw falls back to
endpoints[0], which the modulus also covers. -/
def randomSelectEndpoint (oracle : Nat) (endpoints : List ServiceEndpoint) :
    ServiceEndpoint :=
  if endpoints.isEmpty then emptyEndpoint
  else endpoints.getD (oracle % endpoints.length) emptyEndpoint

/-- The four LoadBalancerStrategy implementations with their mutable
state. -/
inductive Strategy where
  | roundRobin (current : Nat)
  | weightedRoundRobin (weights : WeightMap) (current : Nat)
  | random
  | leastConnections (connections : ConnMap)

/-- Strategy dispatch of SelectEndpoint. -/
def strategySelect (s : Strategy) (endpoints : List ServiceEndpoint)
    (oracle : Nat) : ServiceEndpoint × Strategy :=
  match s with
  | Strategy.roundRobin current =>
      let r := rrSelectEndpoint current endpoints
      (r.1, Strategy.roundRobin r.2)
  | Strategy.weightedRoundRobin w current =>
      let r := wrrSelectEndpoint w current endpoints
      (r.1, Strategy.weightedRoundRobin w r.2)
  | Strategy.random => (randomSelectEndpoint oracle endpoints, Strategy.random)
  | Strategy.leastConnections conns =>
      (lcSelectEndpoint conns endpoints, Strategy.leastConnections conns)

/-- getHealthyEndpoints from load_balancer.go. -/
def getHealthyEndpoints (endpoints : List ServiceEndpoint) : List ServiceEndpoint :=
  endpoints.filter (fun e => e.ready)

/-- LoadBalancer.SelectEndpoint: filter to the healthy subset, return
the sentinel when it is empty, otherwise delegate to the strategy
(statistics updates do not affect selection and are not modelled). -/
def lbSelectEndpoint (s : Strategy) (endpoints : List ServiceEndpoint)
    (oracle : Nat) : ServiceEndpoint × Strategy :=
  let healthy := getHealthyEndpoints endpoints
  if healthy.isEmpty then (emptyEndpoint, s)
  else strategySelect s healthy oracle

/-- The list of endpoints produced by n consecutive
RoundRobinStrategy.SelectEndpoint calls starting from the given
counter. -/
def rrCalls (endpoints : List ServiceEndpoint) (current : Nat) : Nat → List ServiceEndpoint
  | 0 => []
  | n + 1 =>
      let r := rrSelectEndpoint current endpoints
      r.1 :: rrCalls endpoints r.2 n

/-- The list of endpoints produced by n consecutive
WeightedRoundRobinStrategy.SelectEndpoint calls starting from the given
counter. -/
def wrrCalls (w : WeightMap) (endpoints : List ServiceEndpoint) (current : Nat) :
    Nat → List ServiceEndpoint
  | 0 => []
  | n + 1 =>
      let r := wrrSelectEndpoint w current endpoints
      r.1 :: wrrCalls w endpoints r.2 n

/-! ## Service discovery: internal/k8s/discovery.go and the
DiscoveryManager of the services package -/

/-- Association-list maps model the Go maps of the discovery layer. -/
def mapErase (k : String) (m : List (String × α)) : List (String × α) :=
  m.filter fun p => p.1 ≠ k

/-- Insertion into an association-list map (replaces any old binding). -/
def mapInsert (k : String) (v : α) (m : List (String × α)) : List (String × α) :=
  (k, v) :: mapErase k m

/-- Lookup in an association-list map; none models Go's nil /
zero-value result for a missing key. -/
def mapLookup (k : String) (m : List (String × α)) : Option α :=
  (m.find? fun p => p.1 = k).map Prod.snd

/-- The corev1.Service fields consumed by discovery.go. -/
structure K8sService where
  name : String
  nspace : String
  annotations : List (String × String)

/-- DiscoveredService from discovery.go. -/
structure DiscoveredService where
  name : String
  nspace : String
  path : String
  method : String
  authRequired : Bool
  loadBalancing : String
  endpoints : List ServiceEndpoint
deriving DecidableEq

/-- ServiceEventType from discovery.go. -/
inductive ServiceEventType where
  | added
  | modified
  | deleted
deriving DecidableEq

/-- ServiceEvent from discovery.go.  The Service field is a Go pointer:
none models nil. -/
structure ServiceEvent where
  type : ServiceEventType
  service : Option DiscoveredService

/-- shouldDiscoverService from discovery.go: discovered iff the
gateway.io/enabled annotation is present with value "true". -/
def shouldDiscoverService (svc : K8sService) : Bool :=
  match mapLookup "gateway.io/enabled" svc.annotations with
  | some enabled => enabled = "true"
  | none => false

/-- createDiscoveredService from discovery.go, with the annotation
defaults (path "/"+name, method GET, authRequired false, round-robin). -/
def createDiscoveredService (svc : K8sService) : DiscoveredService :=
  { name := svc.name
    nspace := svc.nspace
    path := (mapLookup "gateway.io/path" svc.annotations).getD ("/" ++ svc.name)
    method := (mapLookup "gateway.io/method" svc.annotations).getD "GET"
    authRequired :=
      match mapLookup "gateway.io/auth-required" svc.annotations with
      | some v => v = "true"
      | none => false
    loadBalancing := (mapLookup "gateway.io/load-balancing" svc.annotations).getD "round-robin"
    endpoints := [] }

/-- ServiceDiscovery.handleServiceEvent from discovery.go.
knownEndpoints models sd.endpoints[service.Name].  On a deleted event
the service entry is removed first, and only afterwards the event's
Service payload is read back out of the map — so the emitted deleted
event carries a nil (none) Service.  The channel-full drop branch is
out of scope; the produced event is returned. -/
def sdHandleServiceEvent (services : List (String × DiscoveredService))
    (knownEndpoints : Option (List ServiceEndpoint)) (svc : K8sService)
    (eventType : ServiceEventType) :
    List (String × DiscoveredService) × Option ServiceEvent :=
  if ! shouldDiscoverService svc then (services, none)
  else
    let services1 :=
      if eventType = ServiceEventType.deleted then mapErase svc.name services
      else
        let discovered := createDiscoveredService svc
        let discovered1 :=
          match knownEndpoints with
          | some eps => { discovered with endpoints := eps }
          | none => discovered
        mapInsert svc.name discovered1 services
    (services1, some { type := eventType, service := mapLookup svc.name services1 })

/-- DynamicRoute from the DiscoveryManager (route-table view). -/
structure DynamicRoute where
  path : String
  method : String
  serviceName : String
  nspace : String
  authRequired : Bool
  endpoints : List ServiceEndpoint
deriving DecidableEq

/-- DiscoveryManager.updateRoutes: guarded against a nil Service;
added/modified insert under the method:path key, deleted removes the
key. -/
def dmUpdateRoutes (routes : List (String × DynamicRoute)) (event : ServiceEvent) :
    List (String × DynamicRoute) :=
  match event.service with
  | none => routes
  | some svc =>
      let routeKey := svc.method ++ ":" ++ svc.path
      match event.type with
      | ServiceEventType.added =>
          mapInsert routeKey
            ⟨svc.path, svc.method, svc.name, svc.nspace, svc.authRequired, svc.endpoints⟩
            routes
      | ServiceEventType.modified =>
          mapInsert routeKey
            ⟨svc.path, svc.method, svc.name, svc.nspace, svc.authRequired, svc.endpoints⟩
            routes
      | ServiceEventType.deleted => mapErase routeKey routes

/-- DiscoveryManager.handleServiceEvent: its first statement formats
event.Service.Name, so a nil Service faults (nil pointer dereference)
before updateRoutes or any registered EventProcessor runs; otherwise
the route table is updated (processor fan-out is downstream of the
returned table). -/
def dmHandleServiceEvent (routes : List (String × DynamicRoute))
    (event : ServiceEvent) : Except String (List (String × DynamicRoute)) :=
  match event.service with
  | none => Except.error "runtime error: invalid memory address or nil pointer dereference"
  | some _ => Except.ok (dmUpdateRoutes routes event)

/-- DynamicRouteManager.removeRoute reached through ProcessServiceEvent
on a deleted event: it formats service.Method and service.Path, so a
nil Service faults; otherwise the method:path key is removed. -/
def drmRemoveRoute (routes : List (String × DynamicRoute))
    (service : Option DiscoveredService) : Except String (List (String × DynamicRoute)) :=
  match service with
  | none => Except.error "runtime error: invalid memory address or nil pointer dereference"
  | some svc => Except.ok (mapErase (svc.method ++ ":" ++ svc.path) routes)

/-! ## Rate limiter middleware and getClientIP
(middleware package: rate limiter file and logging.go) -/

/-- Last index of a character in a character list. -/
def lastIdxOf (c : Char) : List Char → Option Nat
  | [] => none
  | x :: rest =>
      match lastIdxOf c rest with
      | some i => some (i + 1)
      | none => if x = c then some 0 else none

/-- First index of a character in a character list. -/
def firstIdxOf (c : Char) : List Char → Option Nat
  | [] => none
  | x :: rest => if x = c then some 0 else (firstIdxOf c rest).map (· + 1)

/-- net.SplitHostPort: some (host, port) on success, none on any of its
error returns (missing port, too many colons, missing or unexpected
brackets). -/
def splitHostPort (s : String) : Option (String × String) :=
  let cs := s.data
  match lastIdxOf ':' cs with
  | none => none
  | some i =>
      match cs with
      | '[' :: _ =>
          match firstIdxOf ']' cs with
          | none => none
          | some endBracket =>
              if endBracket + 1 = cs.length then none
              else if endBracket + 1 = i then
                let host := (cs.drop 1).take (endBracket - 1)
                let port := cs.drop (i + 1)
                if firstIdxOf '[' (cs.drop 1) ≠ none then none
                else if firstIdxOf ']' (cs.drop (endBracket + 1)) ≠ none then none
                else some (⟨host⟩, ⟨port⟩)
              else none
      | _ =>
          let host := cs.take i
          if firstIdxOf ':' host ≠ none then none
          else if firstIdxOf '[' cs ≠ none then none
          else if firstIdxOf ']' (cs.drop i) ≠ none then none
          else some (⟨host⟩, ⟨cs.drop (i + 1)⟩)

/-- The header fields a request carries for client-IP extraction; empty
string models an absent header, RemoteAddr is always present. -/
structure HttpRequest where
  xForwardedFor : String
  xRealIP : String
  cfConnectingIP : String
  remoteAddr : String

/-- ASCII whitespace (the needles here are plain IP strings, so the
Unicode generality of strings.TrimSpace is not needed). -/
def isSpaceChar (c : Char) : Bool :=
  c = ' ' ∨ c = '\t' ∨ c = '\n' ∨ c = '\r'

/-- strings.TrimSpace. -/
def goTrimSpace (s : String) : String :=
  ⟨((s.data.dropWhile isSpaceChar).reverse.dropWhile isSpaceChar).reverse⟩

/-- strings.Split(s, ",")[0]: the run before the first comma. -/
def firstCommaField (s : String) : String :=
  ⟨s.data.takeWhile fun c => c ≠ ','⟩

/-- getClientIP from internal/middleware/logging.go: prefer the first
X-Forwarded-For entry, then X-Real-IP, then CF-Connecting-IP, then the
host part of RemoteAddr (the whole RemoteAddr when it does not
split). -/
def getClientIP (r : HttpRequest) : String :=
  if r.xForwardedFor ≠ "" then goTrimSpace (firstCommaField r.xForwardedFor)
  else if r.xRealIP ≠ "" then r.xRealIP
  else if r.cfConnectingIP ≠ "" then r.cfConnectingIP
  else
    match splitHostPort r.remoteAddr with
    | none => r.remoteAddr
    | some (ip, _) => ip

/-- Outcome of the rate-limiter middleware for one request. -/
inductive RLResult where
  | serverError
  | tooManyRequests
  | passed
deriving DecidableEq

/-- One token-bucket step of RateLimiter.Middleware.  The per-client
map holds remaining tokens; a new client starts with the full burst
(rate.NewLimiter starts with a full bucket).  Timed refill does not
affect which key is consulted and is not modelled.  Returns the
outcome, the updated client map, and the bucket key consulted (none
when RemoteAddr does not split, in which case the middleware answers
500 and touches no bucket). -/
def rateLimiterMiddleware (burst : Nat) (clients : List (String × Nat))
    (r : HttpRequest) : RLResult × List (String × Nat) × Option String :=
  match splitHostPort r.remoteAddr with
  | none => (RLResult.serverError, clients, none)
  | some (ip, _) =>
      let clients1 :=
        match mapLookup ip clients with
        | none => mapInsert ip burst clients
        | some _ => clients
      let tokens := (mapLookup ip clients1).getD 0
      if tokens = 0 then (RLResult.tooManyRequests, clients1, some ip)
      else (RLResult.passed, mapInsert ip (tokens - 1) clients1, some ip)

/-- A breaker of the dynamic route manager sitting in half-open with a
single admitted probe in flight (counts were zeroed when the state
changed to half-open, beforeRequest admitted one probe). -/
def halfOpenProbe : CircuitBreaker :=
  { maxRequests := 5
    interval := 60
    timeout := 30
    readyToTrip := drmReadyToTrip
    isSuccessful := drmIsSuccessful
    state := CBState.halfOpen
    generation := 3
    counts := { Counts.zero with requests := 1 }
    expiry := none }

/-- A route-manager breaker sitting in open whose timeout has expired
(expiry 5) relative to the observation instant 10. -/
def expiredOpenBreaker : CircuitBreaker :=
  { maxRequests := 5
    interval := 60
    timeout := 30
    readyToTrip := drmReadyToTrip
    isSuccessful := drmIsSuccessful
    state := CBState.open
    generation := 7
    counts := Counts.zero
    expiry := some 5 }

/-- Counts witnessing the gap between the two readyToTrip predicates:
20 requests, 15 failures (error rate 3/4), only 3 consecutive
failures. -/
def c4Counts : Counts := ⟨20, 5, 15, 0, 3⟩

/-- A first concrete ready endpoint. -/
def epA : ServiceEndpoint := ⟨"10.0.0.1", 80, true, ""⟩

/-- A second concrete ready endpoint. -/
def epB : ServiceEndpoint := ⟨"10.0.0.2", 80, true, ""⟩

/-- The orders service as a Kubernetes object with gateway annotations
(enabled, GET /orders). -/
def ordersK8s : K8sService :=
  { name := "orders"
    nspace := "default"
    annotations :=
      [("gateway.io/enabled", "true"), ("gateway.io/path", "/orders"),
        ("gateway.io/method", "GET")] }

/-- The discovered form of the orders service. -/
def ordersDiscovered : DiscoveredService := createDiscoveredService ordersK8s

/-- The DiscoveryManager route-table entry for GET /orders. -/
def ordersRoute : DynamicRoute :=
  ⟨"/orders", "GET", "orders", "default", false, []⟩

/-- A request that arrived through a proxy: X-Forwarded-For names the
original client 1.2.3.4, the TCP peer is 5.6.7.8:9. -/
def forwardedRequest : HttpRequest :=
  { xForwardedFor := "1.2.3.4"
    xRealIP := ""
    cfConnectingIP := ""
    remoteAddr := "5.6.7.8:9" }

/-- A request whose RemoteAddr has no port part and so does not
split. -/
def unparsableRequest : HttpRequest :=
  { xForwardedFor := ""
    xRealIP := ""
    cfConnectingIP := ""
    remoteAddr := "nocolonhere" }

/-! ## Theorems -/

/-- errorRate compares against one half exactly as the integers do. -/
theorem errorRate_gt_half_iff (c : Counts) (h : 0 < c.requests) :
    c.errorRate > 1/2 ↔ 2 * c.totalFailures > c.requests := by
  unfold Counts.errorRate
  rw [if_neg (Nat.pos_iff_ne_zero.mp h)]
  rw [gt_iff_lt, lt_div_iff₀ (by exact_mod_cast h)]
  constructor
  · intro hlt
    have h2 : (c.requests : ℚ) < 2 * (c.totalFailures : ℚ) := by linarith
    exact_mod_cast h2
  · intro hlt
    have h2 : (c.requests : ℚ) < 2 * (c.totalFailures : ℚ) := by exact_mod_cast hlt
    linarith

/-- Claim C4, as stated, fails on the code: defaultReadyToTrip ignores
the request count and error rate entirely.  At c4Counts the claimed
predicate holds (20 > 10 requests, rate 3/4 > 1/2) but
defaultReadyToTrip returns false. -/
theorem c4_default_ready_to_trip_counterexample :
    ¬ (defaultReadyToTrip c4Counts = true ↔
        (c4Counts.consecutiveFailures > 5 ∨
          (c4Counts.requests > 10 ∧ c4Counts.errorRate > 1/2))) := by
  intro hiff
  have hrate : c4Counts.errorRate > 1/2 := by
    rw [errorRate_gt_half_iff c4Counts (by norm_num [c4Counts])]
    norm_num [c4Counts]
  have : defaultReadyToTrip c4Counts = true :=
    hiff.mpr (Or.inr ⟨by norm_num [c4Counts], hrate⟩)
  simp [defaultReadyToTrip, c4Counts] at this

/-- Claim C4 (amended): defaultReadyToTrip fires exactly on more than 5
consecutive failures; the predicate combining consecutive failures with
the error-rate rule of the claim is the ReadyToTrip closure installed
by NewDynamicRouteManager. -/
theorem c4_ready_to_trip_amended (c : Counts) :
    (defaultReadyToTrip c = true ↔ c.consecutiveFailures > 5) ∧
      (drmReadyToTrip c = true ↔
        (c.consecutiveFailures > 5 ∨
          (c.requests > 10 ∧ 2 * c.totalFailures > c.requests))) := by
  constructor
  · simp [defaultReadyToTrip]
  · simp only [drmReadyToTrip, Bool.or_eq_true, Bool.and_eq_true, decide_eq_true_eq]
    exact or_congr Iff.rfl
      (and_congr_right fun hreq => errorRate_gt_half_iff c (by omega))

/-- Claim C5: a call whose generation snapshot no longer matches at
afterRequest time updates nothing — afterRequest returns exactly the
breaker produced by the time-driven currentState step, counts
untouched. -/
theorem c5_generation_guard (cb : CircuitBreaker) (before : Nat) (success : Bool)
    (now : Nat) (h : (cb.currentState now).2.2 ≠ before) :
    cb.afterRequest before success now = (cb.currentState now).1 ∧
      (cb.afterRequest before success now).counts = (cb.currentState now).1.counts := by
  unfold CircuitBreaker.afterRequest
  rcases hcs : cb.currentState now with ⟨cb1, st, gen⟩
  rw [hcs] at h
  have h1 : gen ≠ before := h
  simp [h1]

/-- Witness for C5: an open breaker whose timeout expired transitions
at currentState time, so the generation snapshot 7 is stale and the
probe result is discarded. -/
theorem c5_generation_guard_witness :
    (expiredOpenBreaker.currentState 10).2.2 ≠ 7 ∧
      expiredOpenBreaker.afterRequest 7 true 10 = (expiredOpenBreaker.currentState 10).1 := by
  refine ⟨by decide, ?_⟩
  exact (c5_generation_guard expiredOpenBreaker 7 true 10 (by decide)).1

/-- Claim C3, as stated, fails on the code: in half-open the failure
path still consults readyToTrip, and with the route manager's predicate
a single failed probe (1 consecutive failure, 1 request) does not trip,
so the breaker stays half-open instead of returning to open. -/
theorem c3_half_open_failure_counterexample :
    (halfOpenProbe.afterRequest 3 false 1).state = CBState.halfOpen ∧
      (halfOpenProbe.afterRequest 3 false 1).state ≠ CBState.open := by
  decide

/-- Claim C3 (amended): in half-open a successful probe always reaches
closed; a failed probe reaches open exactly when readyToTrip accepts
the incremented counts, and otherwise the breaker remains half-open. -/
theorem c3_half_open_amended (cb : CircuitBreaker) (now : Nat)
    (h : cb.state = CBState.halfOpen) :
    (cb.afterRequest cb.generation true now).state = CBState.closed ∧
      (cb.afterRequest cb.generation false now).state =
        (if cb.readyToTrip
            { cb.counts with
              totalFailures := cb.counts.totalFailures + 1
              consecutiveFailures := cb.counts.consecutiveFailures + 1
              consecutiveSuccesses := 0 } = true
          then CBState.open else CBState.halfOpen) := by
  have hcs : cb.currentState now = (cb, cb.state, cb.generation) := by
    unfold CircuitBreaker.currentState
    rw [h]
  have hsucc : cb.afterRequest cb.generation true now = cb.onSuccess cb.state now := by
    unfold CircuitBreaker.afterRequest
    rw [hcs]
    simp
  have hfail : cb.afterRequest cb.generation false now = cb.onFailure cb.state now := by
    unfold CircuitBreaker.afterRequest
    rw [hcs]
    simp
  constructor
  · rw [hsucc, h]
    unfold CircuitBreaker.onSuccess
    rw [if_pos rfl]
    unfold CircuitBreaker.setState
    rw [if_neg (by simp [h])]
    simp [CircuitBreaker.toNewGeneration]
  · rw [hfail]
    unfold CircuitBreaker.onFailure
    cases htrip : cb.readyToTrip
        { cb.counts with
          totalFailures := cb.counts.totalFailures + 1
          consecutiveFailures := cb.counts.consecutiveFailures + 1
          consecutiveSuccesses := 0 } with
    | true =>
        simp only [htrip, if_true, if_pos rfl]
        unfold CircuitBreaker.setState
        rw [if_neg (by simp [h])]
        simp [CircuitBreaker.toNewGeneration]
    | false =>
        simp only [htrip]
        simp [h]

/-- Witness for C3 (amended) at the half-open probe breaker. -/
theorem c3_half_open_amended_witness :
    (halfOpenProbe.afterRequest halfOpenProbe.generation true 1).state = CBState.closed := by
  exact (c3_half_open_amended halfOpenProbe 1 rfl).1

/-- getD at a valid index is a member. -/
theorem getD_mem_of_lt {α : Type} (l : List α) (n : Nat) (d : α) (h : n < l.length) :
    l.getD n d ∈ l := by
  rw [List.getD_eq_getElem l d h]
  exact List.getElem_mem h

/-- The weighted walk only ever answers with a list member. -/
theorem wrrWalk_mem (w : WeightMap) (l : List ServiceEndpoint) (acc target : Int)
    (e : ServiceEndpoint) (h : wrrWalk w l acc target = some e) : e ∈ l := by
  induction l generalizing acc with
  | nil => simp [wrrWalk] at h
  | cons x rest ih =>
      rw [wrrWalk] at h
      by_cases hcmp : acc + ((w (endpointKey x)).getD 1) > target
      · rw [if_pos hcmp, Option.some.injEq] at h
        rw [← h]
        exact List.mem_cons_self x rest
      · rw [if_neg hcmp] at h
        exact List.mem_cons_of_mem x (ih _ h)

/-- The least-connections walk answers with the carried candidate or a
list member. -/
theorem lcWalk_mem_or (conns : ConnMap) (l : List ServiceEndpoint)
    (selected : ServiceEndpoint) (minC : Int) :
    lcWalk conns l selected minC = selected ∨ lcWalk conns l selected minC ∈ l := by
  induction l generalizing selected minC with
  | nil => exact Or.inl rfl
  | cons x rest ih =>
      rw [lcWalk]
      by_cases hcmp : minC = -1 ∨ conns (endpointKey x) < minC
      · rw [if_pos hcmp]
        rcases ih x (conns (endpointKey x)) with h | h
        · exact Or.inr (by rw [h]; exact List.mem_cons_self x rest)
        · exact Or.inr (List.mem_cons_of_mem x h)
      · rw [if_neg hcmp]
        rcases ih selected minC with h | h
        · exact Or.inl h
        · exact Or.inr (List.mem_cons_of_mem x h)

/-- Every strategy answers with a member of a non-empty input list. -/
theorem strategySelect_mem (s : Strategy) (endpoints : List ServiceEndpoint)
    (oracle : Nat) (h : endpoints ≠ []) :
    (strategySelect s endpoints oracle).1 ∈ endpoints := by
  have hne : endpoints.isEmpty = false := by simp [List.isEmpty_iff, h]
  have hlen : 0 < endpoints.length := List.length_pos.mpr h
  cases s with
  | roundRobin current =>
      simp only [strategySelect, rrSelectEndpoint, hne, Bool.false_eq_true, if_false]
      exact getD_mem_of_lt _ _ _ (Nat.mod_lt _ hlen)
  | weightedRoundRobin w current =>
      simp only [strategySelect, wrrSelectEndpoint, hne, Bool.false_eq_true, if_false]
      by_cases hz : wrrTotalWeight w endpoints = 0
      · rw [if_pos hz]
        exact getD_mem_of_lt _ _ _ hlen
      · rw [if_neg hz]
        cases hwalk : wrrWalk w endpoints 0 (Int.tmod (Int.ofNat current) (wrrTotalWeight w endpoints)) with
        | none => simpa [hwalk] using getD_mem_of_lt endpoints 0 emptyEndpoint hlen
        | some e => simpa [hwalk] using wrrWalk_mem w endpoints _ _ e hwalk
  | random =>
      simp only [strategySelect, randomSelectEndpoint, hne, Bool.false_eq_true, if_false]
      exact getD_mem_of_lt _ _ _ (Nat.mod_lt _ hlen)
  | leastConnections conns =>
      simp only [strategySelect, lcSelectEndpoint, hne, Bool.false_eq_true, if_false]
      cases endpoints with
      | nil => exact absurd rfl h
      | cons x rest =>
          rw [lcWalk, if_pos (Or.inl rfl)]
          rcases lcWalk_mem_or conns rest x (conns (endpointKey x)) with heq | hm
          · rw [heq]
            exact List.mem_cons_self x rest
          · exact List.mem_cons_of_mem x hm

/-- Claim C6: through LoadBalancer.SelectEndpoint no strategy ever
returns an endpoint with ready = false; when no endpoint is ready the
sentinel empty endpoint is returned. -/
theorem c6_no_unready_endpoint (s : Strategy) (endpoints : List ServiceEndpoint)
    (oracle : Nat) :
    ((lbSelectEndpoint s endpoints oracle).1.ready = true ∧
        (lbSelectEndpoint s endpoints oracle).1 ∈ endpoints) ∨
      ((∀ e ∈ endpoints, e.ready = false) ∧
        (lbSelectEndpoint s endpoints oracle).1 = emptyEndpoint) := by
  unfold lbSelectEndpoint
  by_cases hh : getHealthyEndpoints endpoints = []
  · right
    refine ⟨?_, by simp [hh]⟩
    intro e he
    have := (List.filter_eq_nil_iff.mp hh) e he
    simpa [getHealthyEndpoints] using Bool.eq_false_iff.mpr (by simpa using this)
  · left
    have hne : (getHealthyEndpoints endpoints).isEmpty = false := by
      simp [List.isEmpty_iff, hh]
    have hmem : (strategySelect s (getHealthyEndpoints endpoints) oracle).1 ∈
        getHealthyEndpoints endpoints :=
      strategySelect_mem s _ oracle hh
    constructor
    · simp only [hne, Bool.false_eq_true, if_false]
      exact List.of_mem_filter hmem
    · simp only [hne, Bool.false_eq_true, if_false]
      exact List.mem_of_mem_filter hmem

/-- getD over a mapped range picks out the function value. -/
theorem getD_map_range {α : Type} (f : Nat → α) (d : α) (n k : Nat) (h : k < n) :
    ((List.range n).map f).getD k d = f k := by
  have hlen : k < ((List.range n).map f).length := by simpa using h
  rw [List.getD_eq_getElem _ _ hlen]
  simp [List.getElem_map, List.getElem_range]

/-- The round-robin call trace is the range of counters mapped through
indexing mod the length. -/
theorem rrCalls_eq_map (eps : List ServiceEndpoint) (h : eps ≠ []) :
    ∀ (n cur : Nat), rrCalls eps cur n =
      (List.range n).map fun k => eps.getD ((cur + k) % eps.length) emptyEndpoint := by
  intro n
  induction n with
  | zero => intro cur; rfl
  | succ m ih =>
      intro cur
      have hne : eps.isEmpty = false := by simp [List.isEmpty_iff, h]
      rw [rrCalls]
      simp only [rrSelectEndpoint, hne, Bool.false_eq_true, if_false]
      rw [ih (cur + 1), List.range_succ_eq_map, List.map_cons, List.map_map]
      refine congrArg₂ List.cons (by rw [Nat.add_zero]) ?_
      refine List.map_congr_left ?_
      intro a _
      simp only [Function.comp]
      congr 2
      omega

/-- Occurrences of a fixed value in a range. -/
theorem countP_eq_range (N i : Nat) :
    ((List.range N).countP fun k => decide (k = i)) = if i < N then 1 else 0 := by
  induction N with
  | zero => simp
  | succ m ih =>
      rw [List.range_succ, List.countP_append, ih]
      simp only [List.countP_cons, List.countP_nil, decide_eq_true_eq, Nat.zero_add]
      rcases Nat.lt_trichotomy i m with hlt | heq | hgt
      · rw [if_pos hlt, if_neg (by omega), if_pos (by omega)]
      · rw [if_neg (by omega), if_pos (by omega), if_pos (by omega)]
      · rw [if_neg (by omega), if_neg (by omega), if_neg (by omega)]

/-- Each residue class mod N appears exactly K times among the first
K*N naturals. -/
theorem countP_mod_range (N i K : Nat) (hi : i < N) :
    ((List.range (K * N)).countP fun k => decide (k % N = i)) = K := by
  induction K with
  | zero => simp
  | succ m ih =>
      have hmul : (m + 1) * N = m * N + N := by ring
      rw [hmul, List.range_add, List.countP_append, ih, List.countP_map]
      have hcong : ((List.range N).countP
            ((fun k => decide (k % N = i)) ∘ fun k => m * N + k)) =
          ((List.range N).countP fun k => decide (k = i)) := by
        refine List.countP_congr ?_
        intro k hk
        have hklt : k < N := List.mem_range.mp hk
        have hmod : (m * N + k) % N = k := by
          rw [Nat.add_comm, Nat.add_mul_mod_self_right, Nat.mod_eq_of_lt hklt]
        simp [Function.comp, hmod]
      rw [hcong, countP_eq_range, if_pos hi]

/-- Claim C7: starting from counter 0 over a fixed non-empty duplicate-free
list of ready endpoints, the k-th round-robin call returns
endpoints[k mod N], and across K*N calls each endpoint is selected
exactly K times. -/
theorem c7_round_robin_fairness (eps : List ServiceEndpoint) (K : Nat)
    (hne : eps ≠ []) (hnd : eps.Nodup) (_hready : ∀ e ∈ eps, e.ready = true) :
    (∀ k, k < K * eps.length →
        (rrCalls eps 0 (K * eps.length)).getD k emptyEndpoint =
          eps.getD (k % eps.length) emptyEndpoint) ∧
      (∀ i, i < eps.length →
        ((rrCalls eps 0 (K * eps.length)).countP
            fun x => decide (x = eps.getD i emptyEndpoint)) = K) := by
  have hlen : 0 < eps.length := List.length_pos.mpr hne
  have hmap := rrCalls_eq_map eps hne (K * eps.length) 0
  constructor
  · intro k hk
    rw [hmap, getD_map_range _ _ _ _ hk, Nat.zero_add]
  · intro i hi
    rw [hmap, List.countP_map]
    have hcong : ((List.range (K * eps.length)).countP
          ((fun x => decide (x = eps.getD i emptyEndpoint)) ∘
            fun k => eps.getD ((0 + k) % eps.length) emptyEndpoint)) =
        ((List.range (K * eps.length)).countP fun k => decide (k % eps.length = i)) := by
      refine List.countP_congr ?_
      intro k _
      have hkmod : k % eps.length < eps.length := Nat.mod_lt _ hlen
      simp only [Function.comp, decide_eq_true_eq, Nat.zero_add]
      rw [List.getD_eq_getElem eps emptyEndpoint hkmod,
        List.getD_eq_getElem eps emptyEndpoint hi]
      exact hnd.getElem_inj_iff
    rw [hcong, countP_mod_range eps.length i K hi]

/-- Witness for C7: two ready endpoints, six calls, each chosen three
times. -/
theorem c7_round_robin_fairness_witness :
    ((rrCalls [epA, epB] 0 (3 * 2)).countP
        fun x => decide (x = ([epA, epB]).getD 0 emptyEndpoint)) = 3 := by
  exact (c7_round_robin_fairness [epA, epB] 3 (by decide) (by decide) (by decide)).2 0
    (by decide)

/-- With the nil weights map every endpoint weighs 1, so totalWeight is
the list length. -/
theorem wrrTotalWeight_nil_eq (eps : List ServiceEndpoint) :
    wrrTotalWeight nilWeights eps = (eps.length : Int) := by
  suffices h : ∀ (l : List ServiceEndpoint) (acc : Int),
      (l.foldl (fun a e => a + ((nilWeights (endpointKey e)).getD 1)) acc) =
        acc + l.length by
    simpa using h eps 0
  intro l
  induction l with
  | nil => intro acc; simp
  | cons x rest ih =>
      intro acc
      rw [List.foldl_cons, ih]
      simp only [nilWeights, Option.getD_none, List.length_cons]
      push_cast
      ring

/-- With the nil weights map the weighted walk lands on the index
target - acc. -/
theorem wrrWalk_nil_eq (eps : List ServiceEndpoint) :
    ∀ (target acc : Int), 0 ≤ acc → acc ≤ target → target < acc + eps.length →
      wrrWalk nilWeights eps acc target =
        some (eps.getD (target - acc).toNat emptyEndpoint) := by
  induction eps with
  | nil =>
      intro target acc h0 hle hlt
      exfalso
      simp only [List.length_nil, Nat.cast_zero, Int.add_zero] at hlt
      omega
  | cons x rest ih =>
      intro target acc h0 hle hlt
      rw [wrrWalk]
      simp only [nilWeights, Option.getD_none]
      by_cases hc : acc + 1 > target
      · rw [if_pos hc]
        have hz : (target - acc).toNat = 0 := by omega
        rw [hz]
        rfl
      · rw [if_neg hc]
        have hlt2 : target < acc + 1 + (rest.length : Int) := by
          simp only [List.length_cons] at hlt
          push_cast at hlt
          omega
        rw [ih target (acc + 1) (by omega) (by omega) hlt2]
        have h1 : (target - acc).toNat = (target - (acc + 1)).toNat + 1 := by omega
        rw [h1]
        simp [List.getD_cons_succ]

/-- Claim C10, single step: constructed with no weights map, weighted
round-robin is exactly round-robin. -/
theorem wrrSelect_nil_eq_rr (eps : List ServiceEndpoint) (h : eps ≠ []) (cur : Nat) :
    wrrSelectEndpoint nilWeights cur eps = rrSelectEndpoint cur eps := by
  have hne : eps.isEmpty = false := by simp [List.isEmpty_iff, h]
  have hlen : 0 < eps.length := List.length_pos.mpr h
  unfold wrrSelectEndpoint rrSelectEndpoint
  simp only [hne, Bool.false_eq_true, if_false]
  rw [wrrTotalWeight_nil_eq]
  rw [if_neg (by exact_mod_cast Nat.pos_iff_ne_zero.mp hlen)]
  have htmod : Int.tmod (Int.ofNat cur) ((eps.length : Nat) : Int) =
      ((cur % eps.length : Nat) : Int) := rfl
  rw [htmod]
  rw [wrrWalk_nil_eq eps ((cur % eps.length : Nat) : Int) 0 le_rfl
    (Int.natCast_nonneg _)
    (by rw [Int.zero_add]; exact_mod_cast Nat.mod_lt _ hlen)]
  have harg : ((((cur % eps.length : Nat) : Int)) - 0).toNat = cur % eps.length := by
    omega
  rw [harg]

/-- The full weighted trace with nil weights equals the round-robin
trace. -/
theorem wrrCalls_nil_eq_rr (eps : List ServiceEndpoint) (h : eps ≠ []) :
    ∀ (n cur : Nat), wrrCalls nilWeights eps cur n = rrCalls eps cur n := by
  intro n
  induction n with
  | zero => intro cur; rfl
  | succ m ih =>
      intro cur
      rw [wrrCalls, rrCalls, wrrSelect_nil_eq_rr eps h cur, ih]

/-- Claim C10: a WeightedRoundRobinStrategy built with no weights map
makes the same selections (and counter updates) as RoundRobinStrategy
from the same counter; in particular the k-th call indexes
endpoints[(counter + k) mod len]. -/
theorem c10_weighted_nil_refines_round_robin (eps : List ServiceEndpoint)
    (h : eps ≠ []) (cur : Nat) :
    wrrSelectEndpoint nilWeights cur eps = rrSelectEndpoint cur eps ∧
      (∀ n, wrrCalls nilWeights eps cur n = rrCalls eps cur n) ∧
      (∀ n k, k < n →
        (wrrCalls nilWeights eps cur n).getD k emptyEndpoint =
          eps.getD ((cur + k) % eps.length) emptyEndpoint) := by
  refine ⟨wrrSelect_nil_eq_rr eps h cur, fun n => wrrCalls_nil_eq_rr eps h n cur, ?_⟩
  intro n k hk
  rw [wrrCalls_nil_eq_rr eps h n cur, rrCalls_eq_map eps h n cur,
    getD_map_range _ _ _ _ hk]

/-- Witness for C10 at a concrete two-endpoint list. -/
theorem c10_weighted_nil_refines_round_robin_witness :
    wrrSelectEndpoint nilWeights 0 [epA, epB] = rrSelectEndpoint 0 [epA, epB] := by
  exact (c10_weighted_nil_refines_round_robin [epA, epB] (by decide) 0).1

/-- Claim C1 fails on the code: when the proxy transport fails with
connection refused on a fresh closed route-manager breaker, the
swallowed ErrorHandler and the unconditional (nil, nil) return of the
Execute closure make the breaker record a success (TotalSuccesses 1,
TotalFailures 0, ConsecutiveFailures 0), no error reaches
handleDynamicRoute, and nothing — in particular no 502 — is written to
the client, even though isNetworkError classifies the very same error
message as a breaker failure. -/
theorem c1_transport_failure_recorded_as_success :
    (proxyRequestEnhanced (mkDRMCircuitBreaker 0)
        (ProxyTransport.failure "connection refused") [] 1 2).1.counts =
      { requests := 1, totalSuccesses := 1, totalFailures := 0,
        consecutiveSuccesses := 1, consecutiveFailures := 0 } ∧
      (proxyRequestEnhanced (mkDRMCircuitBreaker 0)
        (ProxyTransport.failure "connection refused") [] 1 2).2.1 = [] ∧
      (proxyRequestEnhanced (mkDRMCircuitBreaker 0)
        (ProxyTransport.failure "connection refused") [] 1 2).2.2 = none ∧
      handleProxyResult [] none = [] ∧
      isNetworkError (some "connection refused") = true := by
  decide

/-- Claim C2 fails on the code: on a dynamic route requiring auth,
checkAuthentication accepts any header with the literal Bearer marker
without consulting the token verifier, so a request whose token every
verifier rejects is still forwarded — while the AuthMiddleware factory
(which the route path never calls) rejects the same request with 401.
Missing and malformed headers are rejected as claimed. -/
theorem c2_unverified_token_forwarded :
    (checkAuthentication "Bearer invalid.token").1 = true ∧
      (checkAuthentication "Bearer invalid.token").2 = [] ∧
      authMiddleware (fun _ => false) true "Bearer invalid.token" = some 401 ∧
      checkAuthentication "" = (false, [401]) ∧
      checkAuthentication "Basic dXNlcg" = (false, [401]) := by
  decide

/-- Claim C8 fails on the code: the rate limiter buckets the forwarded
request under the RemoteAddr host 5.6.7.8, not under the
header-derived client IP 1.2.3.4 that getClientIP (used only for
logging) extracts. -/
theorem c8_rate_limiter_key_counterexample :
    (rateLimiterMiddleware 5 [] forwardedRequest).2.2 = some "5.6.7.8" ∧
      getClientIP forwardedRequest = "1.2.3.4" ∧
      (rateLimiterMiddleware 5 [] forwardedRequest).2.2 ≠
        some (getClientIP forwardedRequest) := by
  decide

/-- Claim C8 (amended): the rate limiter keys its per-client bucket by
the host part of net.SplitHostPort(RemoteAddr), ignoring the
forwarding headers; when RemoteAddr does not split, the response is
500 and no bucket is created or consulted. -/
theorem c8_rate_limiter_keying_amended (burst : Nat) (clients : List (String × Nat))
    (r : HttpRequest) :
    (splitHostPort r.remoteAddr = none →
        rateLimiterMiddleware burst clients r = (RLResult.serverError, clients, none)) ∧
      (∀ hs ps, splitHostPort r.remoteAddr = some (hs, ps) →
        (rateLimiterMiddleware burst clients r).2.2 = some hs) := by
  constructor
  · intro hnone
    unfold rateLimiterMiddleware
    rw [hnone]
  · intro hs ps hsome
    unfold rateLimiterMiddleware
    rw [hsome]
    dsimp only
    split
    · rfl
    · rfl

/-- Witness for C8 (amended): the unsplittable RemoteAddr yields 500
with no bucket touched; the forwarded request is keyed by the
RemoteAddr host. -/
theorem c8_rate_limiter_keying_amended_witness :
    rateLimiterMiddleware 1 [] unparsableRequest = (RLResult.serverError, [], none) ∧
      (rateLimiterMiddleware 5 [] forwardedRequest).2.2 = some "5.6.7.8" := by
  exact ⟨(c8_rate_limiter_keying_amended 1 [] unparsableRequest).1 (by decide),
    (c8_rate_limiter_keying_amended 5 [] forwardedRequest).2 "5.6.7.8" "9" (by decide)⟩

/-- Claim C9 fails on the code: deleting the discovered orders service
removes it from the ServiceDiscovery map first, so the emitted deleted
event carries a nil Service; DiscoveryManager.handleServiceEvent then
dereferences event.Service.Name and faults before updateRoutes or any
processor runs (so does DynamicRouteManager.removeRoute), leaving the
GET /orders route in both tables.  Had the event carried the service,
updateRoutes would indeed have removed the route (last conjunct). -/
theorem c9_deleted_event_nil_service_faults :
    (sdHandleServiceEvent [("orders", ordersDiscovered)] none ordersK8s
        ServiceEventType.deleted).1 = [] ∧
      (sdHandleServiceEvent [("orders", ordersDiscovered)] none ordersK8s
        ServiceEventType.deleted).2 =
        some { type := ServiceEventType.deleted, service := none } ∧
      dmHandleServiceEvent [("GET:/orders", ordersRoute)]
          { type := ServiceEventType.deleted, service := none } =
        Except.error "runtime error: invalid memory address or nil pointer dereference" ∧
      drmRemoveRoute [("GET:/orders", ordersRoute)] none =
        Except.error "runtime error: invalid memory address or nil pointer dereference" ∧
      dmUpdateRoutes [("GET:/orders", ordersRoute)]
          { type := ServiceEventType.deleted, service := some ordersDiscovered } = [] := by
  refine ⟨rfl, rfl, rfl, rfl, rfl⟩

end APIGateway
